import Mathlib

/-!
Verification of the incremental ETL synchronization script `etl.py`.

The script copies rows from a set of source tables to a destination
database.  Per table it: resolves a watermark (`SELECT MAX(ts) FROM dest`),
fetches source rows (`WHERE ts > watermark` when the watermark is truthy,
otherwise a full `SELECT *`), appends them to the destination, and
re-reads the watermark for logging.  Every error handler in the script
calls `sys.exit(1)`.

We embed the script shallowly: a table is a list of rows, a row carries
its timestamp-column value (an integer, so that the Python truthiness
test `if last_timestamp` is observable: `None` and `0` are falsy) and a
payload identifier.  Failures of the external database are injected via
a per-table fault marker naming the step at which the database raises;
`sys.exit(1)` is modelled as an exit code in the result.
-/

/-- One row of a table; `ts` is the value of the timestamp column and
`payload` stands for all remaining columns. -/
structure Row where
  ts : Int
  payload : Nat
deriving DecidableEq, Repr

/-- Where the external database raises an exception while this table is
processed, if anywhere.  Each constructor marks the statement of `etl.py`
whose `try` block catches: `resolveFail` the `MAX` query of
`get_latest_timestamp` called from `main`, `fetchFail` the source query of
`fetch_incremental_data`, `loadFail` the `to_sql` append of
`copy_data_to_other_postgres`, and `verifyFail` the post-copy `MAX`
query inside `copy_data_to_other_postgres`. -/
inductive StepFault where
  | noFault
  | resolveFail
  | fetchFail
  | loadFail
  | verifyFail
deriving DecidableEq, Repr

/-- The state of one configured table: its name (an index), the rows of
the source table, the rows of the destination table, and the injected
fault. -/
structure TableState where
  name : Nat
  source : List Row
  dest : List Row
  fault : StepFault
deriving DecidableEq, Repr

/-- `get_latest_timestamp` (etl.py line 51): `SELECT MAX(timestamp_column)
FROM table_name` against the destination; the scalar result is NULL
(`none`) when the table is empty. -/
def get_latest_timestamp : List Row → Option Int
  | [] => none
  | r :: rs =>
    match get_latest_timestamp rs with
    | none => some r.ts
    | some m => some (max r.ts m)

/-- Python truthiness of the watermark value, as tested by
`if last_timestamp` on line 65 of etl.py: `None` is falsy and the
integer `0` is falsy. -/
def py_truthy : Option Int → Bool
  | none => false
  | some w => decide (w ≠ 0)

/-- `fetch_incremental_data` (etl.py line 61): when `last_timestamp` is
truthy the query is `SELECT * FROM t WHERE ts > %s` with the watermark as
parameter, otherwise it is `SELECT * FROM t` (full copy). -/
def fetch_incremental_data (source : List Row) (last_timestamp : Option Int) : List Row :=
  if py_truthy last_timestamp then
    source.filter (fun r => decide (last_timestamp.getD 0 < r.ts))
  else
    source

/-- Observable outcome of one call to `copy_data_to_other_postgres`:
the destination rows after the call (rows written before a late failure
remain written), whether the early-return branch logged
`No new data to copy`, the row count logged by `Copied N rows` (absent
when that line was not reached), the Python return value of the function
(the function has no `return v` statement with a value, so it is always
`None`), and whether the call terminated the process via `sys.exit(1)`. -/
structure LoadResult where
  dest : List Row
  loggedNoNewData : Bool
  loggedCopied : Option Nat
  ret : Option Int
  exited : Bool
deriving DecidableEq, Repr

/-- `copy_data_to_other_postgres` (etl.py line 77): an empty frame
returns early after logging; otherwise the rows are appended with
`to_sql(if_exists='append')`, the count is logged, and the watermark is
re-read for logging.  An exception from `to_sql` or from the re-read
hits the `except` block, which calls `sys.exit(1)`. -/
def copy_data_to_other_postgres (dest df : List Row) (fault : StepFault) : LoadResult :=
  if df.isEmpty then
    { dest := dest, loggedNoNewData := true, loggedCopied := none,
      ret := none, exited := false }
  else if fault = .loadFail then
    { dest := dest, loggedNoNewData := false, loggedCopied := none,
      ret := none, exited := true }
  else if fault = .verifyFail then
    { dest := dest ++ df, loggedNoNewData := false, loggedCopied := some df.length,
      ret := none, exited := true }
  else
    { dest := dest ++ df, loggedNoNewData := false, loggedCopied := some df.length,
      ret := none, exited := false }

/-- The body of the per-table loop of `main` (etl.py lines 99-103):
resolve the watermark on the destination, fetch from the source, copy.
The result is the updated table state together with `some n` (`n` rows
written) on success, or `none` when one of the steps called
`sys.exit(1)`. -/
def sync_table (t : TableState) : TableState × Option Nat :=
  if t.fault = .resolveFail then (t, none)
  else
    let wm := get_latest_timestamp t.dest
    if t.fault = .fetchFail then (t, none)
    else
      let df := fetch_incremental_data t.source wm
      let res := copy_data_to_other_postgres t.dest df t.fault
      if res.exited then ({ t with dest := res.dest }, none)
      else ({ t with dest := res.dest }, some df.length)

/-- Outcome of one invocation of `main`: the final state of every
configured table in order, the rows-written counts of the tables that
completed, and the exit code when `sys.exit` terminated the process
mid-run. -/
structure RunResult where
  finalTables : List TableState
  outcomes : List Nat
  exitCode : Option Nat
deriving DecidableEq, Repr

/-- The loop of `main` (etl.py line 99): tables are processed one after
another in list order; `sys.exit(1)` in any step terminates the whole
process, leaving the remaining tables untouched. -/
def run : List TableState → RunResult
  | [] => { finalTables := [], outcomes := [], exitCode := none }
  | t :: rest =>
    match sync_table t with
    | (t1, some n) =>
      let r := run rest
      { finalTables := t1 :: r.finalTables, outcomes := n :: r.outcomes,
        exitCode := r.exitCode }
    | (t1, none) =>
      { finalTables := t1 :: rest, outcomes := [], exitCode := some 1 }

/-- Observable pipeline events, tagged with the table name.  An event is
recorded when the corresponding database interaction completes without
raising: `resolveW` the initial watermark query, `fetchRows` the source
query, `loadRows` the call to `copy_data_to_other_postgres` returning
without `sys.exit` from `to_sql` (including the empty early return), and
`verifyW` the post-copy watermark query. -/
inductive Event where
  | resolveW (name : Nat)
  | fetchRows (name : Nat)
  | loadRows (name : Nat)
  | verifyW (name : Nat)
deriving DecidableEq, Repr

/-- The events emitted while one table is processed, in program order. -/
def sync_table_trace (t : TableState) : List Event :=
  if t.fault = .resolveFail then []
  else
    let wm := get_latest_timestamp t.dest
    if t.fault = .fetchFail then [.resolveW t.name]
    else
      let df := fetch_incremental_data t.source wm
      if df.isEmpty then
        [.resolveW t.name, .fetchRows t.name, .loadRows t.name]
      else if t.fault = .loadFail then
        [.resolveW t.name, .fetchRows t.name]
      else if t.fault = .verifyFail then
        [.resolveW t.name, .fetchRows t.name, .loadRows t.name]
      else
        [.resolveW t.name, .fetchRows t.name, .loadRows t.name, .verifyW t.name]

/-- The events emitted by one invocation of `main` over the table list:
per-table traces concatenated until the run ends, stopping where
`sys.exit(1)` terminated the process. -/
def run_trace : List TableState → List Event
  | [] => []
  | t :: rest =>
    match sync_table t with
    | (_, some _) => sync_table_trace t ++ run_trace rest
    | (_, none) => sync_table_trace t

/-- The events `sync_table_trace` emits for a fault-free table: resolve,
fetch, load, and verify only when the fetched batch is non-empty. -/
def expected_table_events (t : TableState) : List Event :=
  [.resolveW t.name, .fetchRows t.name, .loadRows t.name] ++
    (if (fetch_incremental_data t.source (get_latest_timestamp t.dest)).isEmpty then []
     else [.verifyW t.name])

/-- The process environment as seen by `os.getenv`: each of the six
required variables is either unset (`none`) or set to a string. -/
structure Env where
  source_db_host : Option String
  source_db_name : Option String
  source_db_user : Option String
  source_db_password : Option String
  source_db_port : Option String
  dest_db_url : Option String
deriving DecidableEq, Repr

/-- `get_env_var` (etl.py line 16): `sys.exit(1)` when the variable is
unset or falsy (the empty string); otherwise return the value. -/
def get_env_var (value : Option String) : Except Nat String :=
  match value with
  | none => .error 1
  | some s => if s = "" then .error 1 else .ok s

/-- Module-level configuration loading (etl.py lines 24-32): the six
`get_env_var` calls that build `SOURCE_DB_PARAMS` and `DEST_DB_URL`,
evaluated at import time, before `main` runs.  The first missing
variable terminates the process with exit code 1. -/
def load_module_config (e : Env) : Except Nat (List String) :=
  match get_env_var e.source_db_host with
  | .error c => .error c
  | .ok h =>
    match get_env_var e.source_db_name with
    | .error c => .error c
    | .ok n =>
      match get_env_var e.source_db_user with
      | .error c => .error c
      | .ok u =>
        match get_env_var e.source_db_password with
        | .error c => .error c
        | .ok p =>
          match get_env_var e.source_db_port with
          | .error c => .error c
          | .ok po =>
            match get_env_var e.dest_db_url with
            | .error c => .error c
            | .ok d => .ok [h, n, u, p, po, d]

/-- The whole program: configuration is resolved at import time; only if
all six variables are present does `main` process the tables.  A missing
variable exits with code 1 before any table is touched. -/
def program (e : Env) (tables : List TableState) : RunResult :=
  match load_module_config e with
  | .error c => { finalTables := tables, outcomes := [], exitCode := some c }
  | .ok _ => run tables

/-! ### Helper lemmas -/

/-- The `MAX` query returns NULL exactly on an empty table. -/
lemma get_latest_timestamp_eq_none_iff (l : List Row) :
    get_latest_timestamp l = none ↔ l = [] := by
  cases l with
  | nil => simp [get_latest_timestamp]
  | cons r rs =>
    simp only [get_latest_timestamp]
    cases get_latest_timestamp rs <;> simp

/-- Every row's timestamp is bounded by the `MAX` query's result. -/
lemma ts_le_get_latest_timestamp {l : List Row} {r : Row} (hm : r ∈ l) :
    ∀ m, get_latest_timestamp l = some m → r.ts ≤ m := by
  induction l with
  | nil => cases hm
  | cons a as ih =>
    intro m h
    rw [get_latest_timestamp] at h
    rcases List.mem_cons.mp hm with h1 | h1
    · subst h1
      cases hgl : get_latest_timestamp as with
      | none => rw [hgl] at h; injection h with h; rw [← h]
      | some m0 =>
        rw [hgl] at h; injection h with h; rw [← h]
        exact le_max_left _ _
    · cases hgl : get_latest_timestamp as with
      | none =>
        rw [(get_latest_timestamp_eq_none_iff as).mp hgl] at h1
        cases h1
      | some m0 =>
        rw [hgl] at h; injection h with h; rw [← h]
        exact le_trans (ih h1 m0 hgl) (le_max_right _ _)

/-- The `MAX` query's result is attained by some row of the table. -/
lemma exists_mem_ts_eq_of_get_latest_timestamp {l : List Row} {m : Int}
    (h : get_latest_timestamp l = some m) : ∃ r ∈ l, r.ts = m := by
  induction l with
  | nil => cases h
  | cons a as ih =>
    rw [get_latest_timestamp] at h
    cases hgl : get_latest_timestamp as with
    | none =>
      rw [hgl] at h; injection h with h
      exact ⟨a, List.mem_cons_self a as, h⟩
    | some m0 =>
      rw [hgl] at h; injection h with h
      rcases max_choice a.ts m0 with hmax | hmax
      · exact ⟨a, List.mem_cons_self a as, by rw [← h, hmax]⟩
      · have hm : m = m0 := by rw [← h, hmax]
        obtain ⟨r, hr, hrts⟩ := ih (by rw [hgl, hm])
        exact ⟨r, List.mem_cons_of_mem a hr, hrts⟩

/-- A fault-free table sync appends exactly the fetched rows and reports
their count. -/
lemma sync_table_noFault (t : TableState) (h : t.fault = .noFault) :
    sync_table t =
      ({ t with dest := t.dest ++ fetch_incremental_data t.source (get_latest_timestamp t.dest) },
        some (fetch_incremental_data t.source (get_latest_timestamp t.dest)).length) := by
  unfold sync_table copy_data_to_other_postgres
  rw [h]
  by_cases hd : (fetch_incremental_data t.source (get_latest_timestamp t.dest)).isEmpty
  · have hnil : fetch_incremental_data t.source (get_latest_timestamp t.dest) = [] :=
      List.isEmpty_iff.mp hd
    simp [hnil]
  · simp [hd]

/-- A fault-free table sync emits the canonical event sequence. -/
lemma sync_table_trace_noFault (t : TableState) (h : t.fault = .noFault) :
    sync_table_trace t = expected_table_events t := by
  unfold sync_table_trace expected_table_events
  rw [h]
  by_cases hd : (fetch_incremental_data t.source (get_latest_timestamp t.dest)).isEmpty <;>
    simp [hd]

/-! ### Claim theorems -/

/-- Claim C10: the fetch decides between the incremental and the
full-copy path by the truthiness of the watermark, so a present but
falsy watermark (the integer `0`) triggers a full copy of the source
table exactly as if the destination were empty. -/
theorem falsy_watermark_full_copy (source : List Row) :
    fetch_incremental_data source (some 0) = source ∧
    fetch_incremental_data source (some 0) = fetch_incremental_data source none := by
  constructor <;> rfl

/-- Claim C2, counterexample: with the present watermark `some 0` the
fetch returns the row whose timestamp exactly equals the watermark,
instead of the (empty) set of rows strictly greater than it. -/
theorem fetch_at_falsy_watermark_includes_boundary_row :
    ({ ts := 0, payload := 0 } : Row) ∈
      fetch_incremental_data [{ ts := 0, payload := 0 }] (some 0) ∧
    fetch_incremental_data [{ ts := 0, payload := 0 }] (some 0) ≠
      List.filter (fun r => decide ((0 : Int) < r.ts)) [{ ts := 0, payload := 0 }] := by
  constructor
  · decide
  · decide

/-- Claim C2, amended: for every present and truthy (nonzero) watermark
`w`, the fetch returns exactly the source rows whose timestamp-column
value is strictly greater than `w`; in particular no returned row has a
timestamp equal to (or below) `w`. -/
theorem fetch_strictly_greater_of_truthy_watermark (source : List Row) (w : Int)
    (hw : w ≠ 0) :
    fetch_incremental_data source (some w) =
      List.filter (fun r => decide (w < r.ts)) source ∧
    ∀ r ∈ fetch_incremental_data source (some w), w < r.ts := by
  have hfil : fetch_incremental_data source (some w) =
      List.filter (fun r => decide (w < r.ts)) source := by
    simp [fetch_incremental_data, py_truthy, hw]
  refine ⟨hfil, ?_⟩
  intro r hr
  rw [hfil] at hr
  simpa using (List.mem_filter.mp hr).2

/-- Claim C2, witness: at watermark 5 over a three-row source, exactly
the row with timestamp 7 survives, and it is strictly above 5. -/
theorem fetch_strictly_greater_witness :
    fetch_incremental_data
        [{ ts := 3, payload := 0 }, { ts := 5, payload := 1 }, { ts := 7, payload := 2 }]
        (some 5) =
      List.filter (fun r => decide ((5 : Int) < r.ts))
        [{ ts := 3, payload := 0 }, { ts := 5, payload := 1 }, { ts := 7, payload := 2 }] ∧
    ∀ r ∈ fetch_incremental_data
        [{ ts := 3, payload := 0 }, { ts := 5, payload := 1 }, { ts := 7, payload := 2 }]
        (some 5), (5 : Int) < r.ts :=
  fetch_strictly_greater_of_truthy_watermark _ 5 (by decide)

/-- Claim C4: when the destination table is empty the resolved watermark
is absent, the fetch returns every source row, and a fault-free sync
copies all of them to the destination. -/
theorem empty_dest_full_copy (t : TableState) (hd : t.dest = [])
    (hf : t.fault = .noFault) :
    sync_table t = ({ t with dest := t.source }, some t.source.length) := by
  have hs := sync_table_noFault t hf
  rw [hd] at hs
  simpa [get_latest_timestamp, fetch_incremental_data, py_truthy] using hs

/-- Claim C4, witness: a two-row source and an empty destination give a
full copy of both rows. -/
theorem empty_dest_full_copy_witness :
    sync_table { name := 0,
                 source := [{ ts := 5, payload := 1 }, { ts := 7, payload := 2 }],
                 dest := [], fault := .noFault } =
      ({ name := 0,
         source := [{ ts := 5, payload := 1 }, { ts := 7, payload := 2 }],
         dest := [{ ts := 5, payload := 1 }, { ts := 7, payload := 2 }],
         fault := .noFault }, some 2) :=
  empty_dest_full_copy _ rfl rfl

/-- Claim C5: loading an empty batch is a no-op for every destination
state and injected fault: it does not exit the process, logs the
no-new-data message (reporting that zero rows were written), returns
without touching the destination, and hence leaves the destination's
watermark unchanged. -/
theorem empty_batch_noop (dest : List Row) (fault : StepFault) :
    copy_data_to_other_postgres dest [] fault =
      { dest := dest, loggedNoNewData := true, loggedCopied := none,
        ret := none, exited := false } ∧
    get_latest_timestamp (copy_data_to_other_postgres dest [] fault).dest =
      get_latest_timestamp dest := by
  constructor <;> rfl

/-- Claim C1, counterexample: three configured tables where only the
middle one faults (in its fetch).  The run terminates with exit code 1
after the failing table; the third table is never processed — its
destination stays empty although a fault-free sync would have copied its
one source row. -/
theorem fetch_failure_skips_remaining_tables :
    run [{ name := 0, source := [{ ts := 1, payload := 0 }], dest := [], fault := .noFault },
         { name := 1, source := [{ ts := 1, payload := 1 }], dest := [], fault := .fetchFail },
         { name := 2, source := [{ ts := 1, payload := 2 }], dest := [], fault := .noFault }] =
      { finalTables :=
          [{ name := 0, source := [{ ts := 1, payload := 0 }],
             dest := [{ ts := 1, payload := 0 }], fault := .noFault },
           { name := 1, source := [{ ts := 1, payload := 1 }], dest := [], fault := .fetchFail },
           { name := 2, source := [{ ts := 1, payload := 2 }], dest := [], fault := .noFault }],
        outcomes := [1], exitCode := some 1 } := by
  decide

/-- Claim C1, amended: a failure while resolving the watermark, fetching,
or loading one table terminates the entire process with exit status 1;
the tables after the failing one are not processed in that run (their
states are left untouched), and there is no per-table FAILED record. -/
theorem table_failure_exits_run (ts1 : List TableState) (t : TableState)
    (ts2 : List TableState)
    (h1 : ∀ u ∈ ts1, u.fault = .noFault)
    (h2 : (sync_table t).snd = none) :
    (run (ts1 ++ t :: ts2)).exitCode = some 1 ∧
    (run (ts1 ++ t :: ts2)).finalTables =
      List.map (fun u => (sync_table u).fst) ts1 ++ (sync_table t).fst :: ts2 := by
  induction ts1 with
  | nil =>
    cases hst : sync_table t with
    | mk t1 o =>
      have ho : o = none := by rw [hst] at h2; exact h2
      subst ho
      simp [run, hst]
  | cons u us ih =>
    have hu : u.fault = .noFault := h1 u (List.mem_cons_self u us)
    have hrest := ih (fun v hv => h1 v (List.mem_cons_of_mem u hv))
    simp only [List.cons_append, run, sync_table_noFault u hu]
    exact ⟨hrest.1, by simp [hrest.2, sync_table_noFault u hu]⟩

/-- Claim C1, witness: instantiating the amended theorem on the
three-table configuration of the counterexample. -/
theorem table_failure_exits_run_witness :
    (sync_table { name := 1, source := [{ ts := 1, payload := 1 }], dest := [],
                  fault := .fetchFail }).snd = none ∧
    (run [{ name := 0, source := [{ ts := 1, payload := 0 }], dest := [], fault := .noFault },
          { name := 1, source := [{ ts := 1, payload := 1 }], dest := [], fault := .fetchFail },
          { name := 2, source := [{ ts := 1, payload := 2 }], dest := [],
            fault := .noFault }]).exitCode = some 1 :=
  ⟨by decide,
   (table_failure_exits_run
      [{ name := 0, source := [{ ts := 1, payload := 0 }], dest := [], fault := .noFault }]
      { name := 1, source := [{ ts := 1, payload := 1 }], dest := [], fault := .fetchFail }
      [{ name := 2, source := [{ ts := 1, payload := 2 }], dest := [], fault := .noFault }]
      (by decide) (by decide)).1⟩

/-- Claim C7, counterexample: a single table whose post-load
verification query raises.  The appended row is already in the
destination, yet the run terminates with exit code 1 — the verification
failure does abort the run instead of being merely logged. -/
theorem verify_failure_exits_process :
    run [{ name := 0, source := [{ ts := 1, payload := 0 }], dest := [],
           fault := .verifyFail }] =
      { finalTables := [{ name := 0, source := [{ ts := 1, payload := 0 }],
                          dest := [{ ts := 1, payload := 0 }], fault := .verifyFail }],
        outcomes := [], exitCode := some 1 } := by
  decide

/-- Claim C7, amended: the watermark is resolved at the start of each
table's sync and re-resolved after a non-empty load; but a failure
during this verification query terminates the whole process with exit
status 1 (the rows appended by the load remain in the destination).  For
an empty batch the verification query is not reached at all. -/
theorem verify_failure_aborts_run (t : TableState) (ht : t.fault = .verifyFail)
    (hne : (fetch_incremental_data t.source (get_latest_timestamp t.dest)).isEmpty = false) :
    run [t] =
      { finalTables :=
          [{ t with dest :=
              t.dest ++ fetch_incremental_data t.source (get_latest_timestamp t.dest) }],
        outcomes := [], exitCode := some 1 } := by
  have hsync : sync_table t =
      ({ t with dest :=
          t.dest ++ fetch_incremental_data t.source (get_latest_timestamp t.dest) }, none) := by
    unfold sync_table copy_data_to_other_postgres
    rw [ht]
    simp [hne]
  simp [run, hsync]

/-- Claim C7, witness: instantiating the amended theorem on the
counterexample's table. -/
theorem verify_failure_aborts_run_witness :
    (fetch_incremental_data [{ ts := 1, payload := 0 }]
        (get_latest_timestamp ([] : List Row))).isEmpty = false ∧
    run [{ name := 0, source := [{ ts := 1, payload := 0 }], dest := [],
           fault := .verifyFail }] =
      { finalTables := [{ name := 0, source := [{ ts := 1, payload := 0 }],
                          dest := [{ ts := 1, payload := 0 }], fault := .verifyFail }],
        outcomes := [], exitCode := some 1 } :=
  ⟨by decide,
   verify_failure_aborts_run
     { name := 0, source := [{ ts := 1, payload := 0 }], dest := [], fault := .verifyFail }
     rfl (by decide)⟩

/-- Claim C8, counterexample: a fault-free table whose fetched batch is
empty.  The emitted events are resolve, fetch, load only — the
verification step is skipped, although the claim says no step is ever
skipped. -/
theorem verify_skipped_on_empty_batch :
    run_trace [{ name := 0, source := [], dest := [], fault := .noFault }] =
      [.resolveW 0, .fetchRows 0, .loadRows 0] ∧
    Event.verifyW 0 ∉
      run_trace [{ name := 0, source := [], dest := [], fault := .noFault }] := by
  constructor
  · decide
  · decide

/-- Claim C8, amended: in a fault-free run the tables are processed one
at a time in exactly the configured list order, and within each table
the steps occur in the fixed order resolve watermark, fetch, load; the
verification step follows the load exactly when the fetched batch is
non-empty (it is skipped for an empty batch). -/
theorem run_trace_in_order (ts : List TableState)
    (h : ∀ t ∈ ts, t.fault = .noFault) :
    run_trace ts = (List.map expected_table_events ts).flatten := by
  induction ts with
  | nil => rfl
  | cons t rest ih =>
    have ht := h t (List.mem_cons_self t rest)
    have hrest := ih (fun u hu => h u (List.mem_cons_of_mem t hu))
    simp [run_trace, sync_table_noFault t ht, sync_table_trace_noFault t ht, hrest]

/-- Claim C8, witness: two fault-free tables, the first with one new row
and the second with nothing to copy; the trace is the per-table blocks
in list order, the second without a verification event. -/
theorem run_trace_in_order_witness :
    run_trace [{ name := 0, source := [{ ts := 1, payload := 0 }], dest := [],
                 fault := .noFault },
               { name := 1, source := [], dest := [], fault := .noFault }] =
      (List.map expected_table_events
        [{ name := 0, source := [{ ts := 1, payload := 0 }], dest := [],
           fault := .noFault },
         { name := 1, source := [], dest := [], fault := .noFault }]).flatten :=
  run_trace_in_order _ (by decide)

/-- Claim C3, counterexample: a source whose one row has the falsy
timestamp 0 and an empty destination.  The first run copies the row; at
the start of the second run the resolved watermark `some 0` is falsy, so
the second run performs a full copy again and copies 1 row, not 0. -/
theorem second_run_recopies_at_zero_watermark :
    (sync_table (sync_table { name := 0, source := [{ ts := 0, payload := 0 }],
                              dest := [], fault := .noFault }).fst).snd = some 1 ∧
    (sync_table (sync_table { name := 0, source := [{ ts := 0, payload := 0 }],
                              dest := [], fault := .noFault }).fst).snd ≠ some 0 := by
  constructor
  · decide
  · decide

/-- Claim C3, amended: for every table, if the watermark resolved at the
start of the second fault-free run is not the present-but-falsy value
`some 0`, then the second run copies zero rows and leaves the table
unchanged — the watermark suppresses re-copy of everything loaded by the
first run. -/
theorem second_run_copies_zero_of_truthy_watermark (t : TableState)
    (hf : t.fault = .noFault)
    (h0 : get_latest_timestamp (sync_table t).fst.dest ≠ some 0) :
    (sync_table (sync_table t).fst).snd = some 0 ∧
    (sync_table (sync_table t).fst).fst = (sync_table t).fst := by
  have hs := sync_table_noFault t hf
  have ht1 : (sync_table t).fst =
      { t with dest := t.dest ++ fetch_incremental_data t.source (get_latest_timestamp t.dest) } := by
    rw [hs]
  have hfault1 : (sync_table t).fst.fault = .noFault := by rw [ht1]; exact hf
  have hsrc1 : (sync_table t).fst.source = t.source := by rw [ht1]
  have hempty :
      fetch_incremental_data t.source (get_latest_timestamp ((sync_table t).fst).dest) = [] := by
    cases hw : get_latest_timestamp ((sync_table t).fst).dest with
    | none =>
      have hdest : ((sync_table t).fst).dest = [] :=
        (get_latest_timestamp_eq_none_iff _).mp hw
      rw [ht1] at hdest
      simp only [List.append_eq_nil] at hdest
      obtain ⟨hd0, hdf0⟩ := hdest
      have hwm0 : get_latest_timestamp t.dest = none := by rw [hd0]; rfl
      rw [hwm0] at hdf0
      have hsrc : t.source = [] := by
        simpa [fetch_incremental_data, py_truthy] using hdf0
      rw [hsrc]
      rfl
    | some m =>
      have hm0 : m ≠ 0 := by intro hm; rw [hm] at hw; exact h0 hw
      have hbound : ∀ r ∈ t.source, r.ts ≤ m := by
        intro r hr
        by_cases hcase : py_truthy (get_latest_timestamp t.dest) = true
        · obtain ⟨w, hw0⟩ : ∃ w, get_latest_timestamp t.dest = some w := by
            cases hgl : get_latest_timestamp t.dest with
            | none => rw [hgl] at hcase; exact absurd hcase (by simp [py_truthy])
            | some w => exact ⟨w, rfl⟩
          have hwne : w ≠ 0 := by
            rw [hw0] at hcase
            simpa [py_truthy] using hcase
          by_cases hlt : w < r.ts
          · have hrdf : r ∈ fetch_incremental_data t.source (get_latest_timestamp t.dest) := by
              rw [hw0]
              simp [fetch_incremental_data, py_truthy, hwne, List.mem_filter, hr, hlt]
            have hrd1 : r ∈ ((sync_table t).fst).dest := by
              rw [ht1]
              exact List.mem_append_right _ hrdf
            exact ts_le_get_latest_timestamp hrd1 m hw
          · push_neg at hlt
            have hwm : w ≤ m := by
              obtain ⟨r0, hr0mem, hr0ts⟩ := exists_mem_ts_eq_of_get_latest_timestamp hw0
              have hr0d1 : r0 ∈ ((sync_table t).fst).dest := by
                rw [ht1]
                exact List.mem_append_left _ hr0mem
              calc w = r0.ts := hr0ts.symm
                _ ≤ m := ts_le_get_latest_timestamp hr0d1 m hw
            exact le_trans hlt hwm
        · have hfalse : py_truthy (get_latest_timestamp t.dest) = false := by
            simpa using hcase
          have hrdf : r ∈ fetch_incremental_data t.source (get_latest_timestamp t.dest) := by
            unfold fetch_incremental_data
            rw [hfalse]
            simpa using hr
          have hrd1 : r ∈ ((sync_table t).fst).dest := by
            rw [ht1]
            exact List.mem_append_right _ hrdf
          exact ts_le_get_latest_timestamp hrd1 m hw
      have hfil : fetch_incremental_data t.source (some m) =
          List.filter (fun r => decide (m < r.ts)) t.source := by
        simp [fetch_incremental_data, py_truthy, hm0]
      rw [hfil, List.filter_eq_nil_iff]
      intro r hr
      simpa using not_lt.mpr (hbound r hr)
  have hs1 := sync_table_noFault (sync_table t).fst hfault1
  rw [hsrc1, hempty] at hs1
  refine ⟨by rw [hs1]; rfl, ?_⟩
  rw [hs1]
  simp [← hsrc1]

/-- Claim C3, witness: a one-row source with the truthy timestamp 5; the
second run copies zero rows. -/
theorem second_run_copies_zero_witness :
    get_latest_timestamp
        (sync_table { name := 0, source := [{ ts := 5, payload := 1 }], dest := [],
                      fault := .noFault }).fst.dest ≠ some 0 ∧
    (sync_table (sync_table { name := 0, source := [{ ts := 5, payload := 1 }], dest := [],
                              fault := .noFault }).fst).snd = some 0 :=
  ⟨by decide,
   (second_run_copies_zero_of_truthy_watermark
      { name := 0, source := [{ ts := 5, payload := 1 }], dest := [], fault := .noFault }
      rfl (by decide)).1⟩

/-- Claim C6, counterexample: the load operation's Python return value is
`None` both for a non-empty and for an empty batch — it never returns the
number of rows written as an integer. -/
theorem load_returns_no_integer :
    (copy_data_to_other_postgres [] [{ ts := 1, payload := 0 }] .noFault).ret = none ∧
    (copy_data_to_other_postgres [] ([] : List Row) .noFault).ret = none := by
  constructor
  · decide
  · decide

/-- Claim C6, amended: the load operation returns no value (Python
`None`); the number of rows written is reported through the log instead:
whenever the call returns without exiting, a non-empty batch logs its
length as the copied-row count and an empty batch logs the no-new-data
message and no count. -/
theorem load_returns_none_and_logs_count (dest df : List Row) (fault : StepFault)
    (h : (copy_data_to_other_postgres dest df fault).exited = false) :
    (copy_data_to_other_postgres dest df fault).ret = none ∧
    (copy_data_to_other_postgres dest df fault).loggedCopied =
      (if df.isEmpty then none else some df.length) := by
  unfold copy_data_to_other_postgres at h ⊢
  by_cases hd : df.isEmpty
  · simp [hd]
  · simp only [hd, if_false, Bool.false_eq_true] at h ⊢
    by_cases hl : fault = .loadFail
    · rw [if_pos hl] at h
      cases h
    · rw [if_neg hl] at h ⊢
      by_cases hv : fault = .verifyFail
      · rw [if_pos hv] at h
        cases h
      · rw [if_neg hv]
        exact ⟨rfl, rfl⟩

/-- Claim C6, witness: a one-row batch loaded without fault returns
`None` and logs the count 1. -/
theorem load_returns_none_and_logs_count_witness :
    (copy_data_to_other_postgres [] [{ ts := 1, payload := 0 }] .noFault).exited = false ∧
    (copy_data_to_other_postgres [] [{ ts := 1, payload := 0 }] .noFault).ret = none ∧
    (copy_data_to_other_postgres [] [{ ts := 1, payload := 0 }] .noFault).loggedCopied =
      (if ([{ ts := 1, payload := 0 }] : List Row).isEmpty then none else some 1) :=
  ⟨rfl, load_returns_none_and_logs_count [] [{ ts := 1, payload := 0 }] .noFault rfl⟩

/-- `get_env_var` only ever exits with code 1. -/
lemma get_env_var_error_code (v : Option String) (c : Nat)
    (h : get_env_var v = .error c) : c = 1 := by
  cases v with
  | none => simp [get_env_var] at h; omega
  | some s =>
    by_cases hs : s = ""
    · simp [get_env_var, hs] at h; omega
    · simp [get_env_var, hs] at h

/-- `get_env_var` succeeds only on a variable that is set. -/
lemma get_env_var_ok_ne_none (v : Option String) (s : String)
    (h : get_env_var v = .ok s) : v ≠ none := by
  intro hv
  rw [hv] at h
  simp [get_env_var] at h

/-- Every failure of the module-level configuration loading carries exit
code 1, the only code `get_env_var` ever exits with. -/
lemma load_module_config_error_code (e : Env) (c : Nat)
    (h : load_module_config e = .error c) : c = 1 := by
  unfold load_module_config at h
  repeat' split at h
  all_goals
    first
      | exact Except.noConfusion h
      | (injection h with h; rw [← h]; exact get_env_var_error_code _ _ (by assumption))

/-- If the module-level configuration loading succeeds, all six required
environment variables were present. -/
lemma load_module_config_ok_fields (e : Env) (l : List String)
    (h : load_module_config e = .ok l) :
    e.source_db_host ≠ none ∧ e.source_db_name ≠ none ∧ e.source_db_user ≠ none ∧
    e.source_db_password ≠ none ∧ e.source_db_port ≠ none ∧ e.dest_db_url ≠ none := by
  unfold load_module_config at h
  repeat' split at h
  all_goals try exact Except.noConfusion h
  exact ⟨get_env_var_ok_ne_none _ _ (by assumption), get_env_var_ok_ne_none _ _ (by assumption),
    get_env_var_ok_ne_none _ _ (by assumption), get_env_var_ok_ne_none _ _ (by assumption),
    get_env_var_ok_ne_none _ _ (by assumption), get_env_var_ok_ne_none _ _ (by assumption)⟩

/-- Claim C9: if any of the six required configuration values is missing
from the environment, the program terminates with exit code 1 before any
table is processed — every table keeps its initial state and no outcome
is recorded. -/
theorem missing_config_fails_fast (e : Env) (tables : List TableState)
    (h : e.source_db_host = none ∨ e.source_db_name = none ∨ e.source_db_user = none ∨
         e.source_db_password = none ∨ e.source_db_port = none ∨ e.dest_db_url = none) :
    program e tables =
      { finalTables := tables, outcomes := [], exitCode := some 1 } := by
  have hnotok : ∀ l, load_module_config e ≠ .ok l := by
    intro l hl
    obtain ⟨h1, h2, h3, h4, h5, h6⟩ := load_module_config_ok_fields e l hl
    rcases h with h | h | h | h | h | h
    · exact h1 h
    · exact h2 h
    · exact h3 h
    · exact h4 h
    · exact h5 h
    · exact h6 h
  cases hc : load_module_config e with
  | error c =>
    have hc1 := load_module_config_error_code e c hc
    subst hc1
    simp [program, hc]
  | ok l => exact absurd hc (hnotok l)

/-- Claim C9, witness: with only the destination URL missing, the
program exits with code 1 and the configured table is untouched. -/
theorem missing_config_fails_fast_witness :
    program { source_db_host := some "localhost", source_db_name := some "db",
              source_db_user := some "user", source_db_password := some "pw",
              source_db_port := some "5432", dest_db_url := none }
        [{ name := 0, source := [{ ts := 1, payload := 0 }], dest := [],
           fault := .noFault }] =
      { finalTables := [{ name := 0, source := [{ ts := 1, payload := 0 }], dest := [],
                          fault := .noFault }],
        outcomes := [], exitCode := some 1 } :=
  missing_config_fails_fast _ _ (by simp)
